import Mathlib

/-!
Verification of the ArkadasAI demo API (src/app.py) against its
natural-language specification.

The whole request-handling surface of the service is embedded shallowly:
the two in-memory dictionaries `USERS` and `TOKENS` become association
lists inside a state record `St` (Python 3.7+ dicts preserve insertion
order, so `USERS` is kept in creation order and `len(USERS)` is the list
length; `TOKENS` entries are prepended so that `List.lookup`, which finds
the first match, realises the latest-write-wins semantics of dictionary
assignment).  Each FastAPI handler becomes a pure function from the state
and the request data to a new state and a response; the wall-clock
millisecond timestamp read by `mk_token` is passed in explicitly.
Unhandled `KeyError` exceptions (from the unguarded `USERS[email]`
subscripts) are modelled by the distinguished response `Resp.keyError`.
-/

/-! ### Decimal representation: injectivity of `Nat.repr`

Python's f-strings render integers in decimal, which is `Nat.repr` on the
Lean side.  The standard library has no injectivity lemma for it, so we
prove one, going through a fuel-free recursion `decAux` equal to
`Nat.toDigitsCore` and a decoding function that recovers the number.
-/

/-- Fuel-free version of `Nat.toDigitsCore 10`. -/
def decAux (n : Nat) (ds : List Char) : List Char :=
  if h : n / 10 = 0 then Nat.digitChar (n % 10) :: ds
  else decAux (n / 10) (Nat.digitChar (n % 10) :: ds)
decreasing_by
  exact Nat.div_lt_self (Nat.pos_of_ne_zero (fun h0 => h (by simp [h0]))) (by decide)

/-- Numeric value of a decimal digit character. -/
def charVal (c : Char) : Nat := c.toNat - 48

/-- Decode a most-significant-first digit string back to a number. -/
def decodeDigits (l : List Char) : Nat :=
  l.foldl (fun acc c => 10 * acc + charVal c) 0

/-! ### Data model -/

/-- A value of the `USERS` dictionary: the JSON-shaped user record
`\x7bid, email, name, plan\x7d` built by `register` and `login`. -/
structure UserRec where
  id : String
  email : String
  name : String
  plan : String
deriving Repr, DecidableEq

/-- An entry of the static `PLANS` catalog: `\x7bid, name, desc, price\x7d`. -/
structure PlanDesc where
  id : String
  name : String
  desc : String
  price : String
deriving Repr, DecidableEq

/-- The static plan catalog `PLANS` from src/app.py. -/
def PLANS : List PlanDesc :=
  [⟨"free", "Free", "Basic chat, limited usage", "₺0"⟩,
   ⟨"plus", "Plus", "Faster replies, longer context", "₺199/ay"⟩,
   ⟨"pro", "Pro", "Priority latency, enterprise features", "₺499/ay"⟩]

/-- The mutable process state: `USERS : Dict[str, Dict[str, str]]` as an
association list in insertion (= creation) order, and
`TOKENS : Dict[str, str]` as an association list with the most recent
write first (so `List.lookup` returns the latest binding, like a dict). -/
structure St where
  users : List (String × UserRec)
  tokens : List (String × String)
deriving Repr, DecidableEq

/-- The empty state at process start. -/
def initSt : St := ⟨[], []⟩

/-! ### Python string primitives used by the handlers -/

/-- Python `email.replace('@', '_')`. -/
def pyReplaceAt (e : String) : String :=
  (e.data.map (fun c => if c = '@' then '_' else c)).asString

/-- Python `s.startswith(p)`. -/
def pyStartswith (s p : String) : Bool := p.data.isPrefixOf s.data

/-- Python `s.lower()` (ASCII model, matching the personas and plan names
that actually occur). -/
def pyLower (s : String) : String := (s.data.map Char.toLower).asString

/-- Python `s.capitalize()`: first character upper-cased, the rest
lower-cased. -/
def pyCapitalize (s : String) : String :=
  match s.data with
  | [] => ""
  | c :: cs => (c.toUpper :: cs.map Char.toLower).asString

/-- Python `s.strip()`: remove leading and trailing whitespace. -/
def pyStrip (s : String) : String :=
  (((s.data.dropWhile Char.isWhitespace).reverse.dropWhile
      Char.isWhitespace).reverse).asString

/-- Python `s.split(" ", 1)[1]`: everything after the first space
(total model; the caller guards with `startswith("Bearer ")`, which
guarantees a space exists). -/
def splitSpaceTail (s : String) : String :=
  ((s.data.dropWhile (fun c => c ≠ ' ')).drop 1).asString

/-- Python `payload.persona or "Arkadaş"`: the default replaces `None`
and every falsy string, i.e. `""`. -/
def pyOrDefault (v : Option String) (dflt : String) : String :=
  match v with
  | none => dflt
  | some str => if str = "" then dflt else str

/-! ### Helper functions of src/app.py -/

/-- The token string built by `mk_token`:
`f"demo_\x7bint(time.time() * 1000)\x7d_\x7bemail.replace('@', '_')\x7d"`,
with the millisecond timestamp `t` passed in explicitly. -/
def mk_token_value (t : Nat) (email : String) : String :=
  "demo_" ++ Nat.repr t ++ "_" ++ pyReplaceAt email

/-- `mk_token`: generate the token string and store `token -> email`
in `TOKENS`; returns the token and the updated store. -/
def mk_token (t : Nat) (email : String) (tokens : List (String × String)) :
    String × List (String × String) :=
  let token := mk_token_value t email
  (token, (token, email) :: tokens)

/-- `get_email_from_token`: resolve the `Authorization` header value to
an email, or fail with an HTTP status and detail.  `not authorization`
is true for an absent header and for the empty string; `TOKENS.get`
yields `none` for an unknown token; `not email` is also true for the
empty-string email. -/
def get_email_from_token (tokens : List (String × String))
    (authorization : Option String) : Except (Nat × String) String :=
  match authorization with
  | none => .error (401, "Missing or invalid token")
  | some a =>
    if a = "" then .error (401, "Missing or invalid token")
    else if pyStartswith a "Bearer " = false then
      .error (401, "Missing or invalid token")
    else
      let token := splitSpaceTail a
      match tokens.lookup token with
      | none => .error (401, "Invalid token")
      | some email =>
        if email = "" then .error (401, "Invalid token") else .ok email

/-! ### Responses and endpoint handlers -/

/-- Handler outcome: one success shape per endpoint, an HTTP error
`(status, detail)`, or an unhandled `KeyError` from an unguarded
`USERS[email]` subscript. -/
inductive Resp where
  | okHealth (status service : String) (ts : Nat)
  | okAuth (token : String) (user : UserRec)
  | okMe (user : UserRec)
  | okPlans (plans : List PlanDesc)
  | okChat (sender reply user_plan : String)
  | okPurchase (user : UserRec)
  | err (status : Nat) (detail : String)
  | keyError
deriving Repr, DecidableEq

/-- `GET /health`. -/
def health (ts : Nat) (s : St) : St × Resp :=
  (s, .okHealth "ok" "arkadasai-demo-api" ts)

/-- `POST /auth/register`: 409 if the email is already a key of `USERS`,
otherwise insert a record with id `user_<len(USERS)+1>`, the supplied
name and plan `"Free"`, then issue a token. -/
def register (t : Nat) (email password name : String) (s : St) : St × Resp :=
  if (s.users.lookup email).isSome then
    (s, .err 409 "User already exists")
  else
    let user : UserRec :=
      ⟨"user_" ++ Nat.repr (s.users.length + 1), email, name, "Free"⟩
    let (token, tokens1) := mk_token t email s.tokens
    (⟨s.users ++ [(email, user)], tokens1⟩, .okAuth token user)

/-- `POST /auth/login`: auto-provision the email with name `"Guest"` and
plan `"Free"` if absent, then issue a token and return `USERS[email]`. -/
def login (t : Nat) (email password : String) (s : St) : St × Resp :=
  let users1 :=
    if (s.users.lookup email).isSome then s.users
    else s.users ++
      [(email, ⟨"user_" ++ Nat.repr (s.users.length + 1), email, "Guest", "Free"⟩)]
  let (token, tokens1) := mk_token t email s.tokens
  match users1.lookup email with
  | some user => (⟨users1, tokens1⟩, .okAuth token user)
  | none => (⟨users1, tokens1⟩, .keyError)

/-- `GET /me`: resolve the token, then return `USERS[email]`. -/
def me (authorization : Option String) (s : St) : St × Resp :=
  match get_email_from_token s.tokens authorization with
  | .error (c, d) => (s, .err c d)
  | .ok email =>
    match s.users.lookup email with
    | some user => (s, .okMe user)
    | none => (s, .keyError)

/-- `GET /plans`. -/
def get_plans (s : St) : St × Resp := (s, .okPlans PLANS)

/-- `POST /chat/send`: resolve the token against the state `s0` current
before the `asyncio.sleep(1.5)` suspension, build the templated reply,
and read `USERS[email]["plan"]` from the state `s1` current after the
suspension (the handler re-reads the plan at response time). -/
def chat_send (message : String) (persona : Option String)
    (authorization : Option String) (s0 s1 : St) : Resp :=
  match get_email_from_token s0.tokens authorization with
  | .error (c, d) => .err c d
  | .ok email =>
    let personaStr := pyLower (pyOrDefault persona "Arkadaş")
    let reply_text := pyCapitalize personaStr ++ " modu: Mesajını aldım — kısa demo yanıt."
    match s1.users.lookup email with
    | some user => .okChat "assistant" reply_text user.plan
    | none => .keyError

/-- Overwrite the plan field of the record stored under `email`
(`USERS[email]["plan"] = plan`), leaving every other entry and every
other field untouched. -/
def setPlanAt (users : List (String × UserRec)) (email plan : String) :
    List (String × UserRec) :=
  users.map (fun p => if p.1 = email then (p.1, { p.2 with plan := plan }) else p)

/-- `POST /purchase/confirm`: resolve the token, normalise the requested
plan with `strip().lower()`, reject anything but `"plus"`/`"pro"` with
400, otherwise store the canonical capitalised form and return
`USERS[email]`. -/
def purchase_confirm (plan : String) (authorization : Option String)
    (s : St) : St × Resp :=
  match get_email_from_token s.tokens authorization with
  | .error (c, d) => (s, .err c d)
  | .ok email =>
    let plan_lower := pyLower (pyStrip plan)
    if ¬ (plan_lower = "plus" ∨ plan_lower = "pro") then
      (s, .err 400 "plan must be Plus or Pro")
    else
      match s.users.lookup email with
      | none => (s, .keyError)
      | some _ =>
        let newPlan := if plan_lower = "plus" then "Plus" else "Pro"
        let users1 := setPlanAt s.users email newPlan
        match users1.lookup email with
        | some user => (⟨users1, s.tokens⟩, .okPurchase user)
        | none => (⟨users1, s.tokens⟩, .keyError)

/-! ### Requests and the reachable-state machine -/

/-- One HTTP request, with the timestamp the handler would read from the
clock where relevant. -/
inductive Req where
  | health (ts : Nat)
  | register (t : Nat) (email password name : String)
  | login (t : Nat) (email password : String)
  | me (authorization : Option String)
  | plans
  | chatSend (message : String) (persona : Option String)
      (authorization : Option String)
  | purchaseConfirm (plan : String) (authorization : Option String)

/-- Dispatch one request against the state (handlers run atomically:
none of them awaits between touching the shared dictionaries). -/
def step (r : Req) (s : St) : St × Resp :=
  match r with
  | .health ts => health ts s
  | .register t e pw n => register t e pw n s
  | .login t e pw => login t e pw s
  | .me auth => me auth s
  | .plans => get_plans s
  | .chatSend m p auth => (s, chat_send m p auth s s)
  | .purchaseConfirm p auth => purchase_confirm p auth s

/-- The state after a request. -/
def stepSt (r : Req) (s : St) : St := (step r s).1

/-- The response to a request. -/
def stepResp (r : Req) (s : St) : Resp := (step r s).2

/-- States reachable from process start by some request sequence. -/
inductive Reachable : St → Prop where
  | init : Reachable initSt
  | step (r : Req) {s : St} : Reachable s → Reachable (stepSt r s)

/-! ### Association-list lemmas -/
/-! ### The reachable-state invariant -/

/-- Invariant maintained by every handler: the i-th user record created
carries id `user_<i+1>`, and every email stored in `TOKENS` is a key of
`USERS`. -/
def GoodSt (s : St) : Prop :=
  (∀ i (h : i < s.users.length), (s.users[i]).2.id = "user_" ++ Nat.repr (i + 1))
  ∧ ∀ tok e, (tok, e) ∈ s.tokens → (s.users.lookup e).isSome = true

/-! ### Lemma development -/

theorem toDigitsCore_eq_decAux :
    ∀ (fuel n : Nat) (ds : List Char), n < fuel →
      Nat.toDigitsCore 10 fuel n ds = decAux n ds := by
  intro fuel
  induction fuel with
  | zero => intro n ds h; exact absurd h (Nat.not_lt_zero n)
  | succ f ih =>
    intro n ds h
    rw [decAux]
    simp only [Nat.toDigitsCore]
    by_cases h0 : n / 10 = 0
    · simp [h0]
    · simp only [h0, if_false, dif_neg]
      apply ih
      have hpos : 0 < n := Nat.pos_of_ne_zero (fun hn => h0 (by simp [hn]))
      have := Nat.div_lt_self hpos (by decide : 1 < 10)
      omega

theorem decAux_append (n : Nat) :
    ∀ ds : List Char, decAux n ds = decAux n [] ++ ds := by
  induction n using Nat.strong_induction_on with
  | _ n ih =>
    intro ds
    by_cases h0 : n / 10 = 0
    · conv_lhs => rw [decAux]
      conv_rhs => rw [decAux]
      simp [h0]
    · have hpos : 0 < n := Nat.pos_of_ne_zero (fun hn => h0 (by simp [hn]))
      have hlt : n / 10 < n := Nat.div_lt_self hpos (by decide)
      conv_lhs => rw [decAux]
      conv_rhs => rw [decAux]
      rw [dif_neg h0, dif_neg h0]
      rw [ih _ hlt (Nat.digitChar (n % 10) :: ds),
          ih _ hlt (Nat.digitChar (n % 10) :: [])]
      simp

theorem charVal_digitChar : ∀ d, d < 10 → charVal (Nat.digitChar d) = d := by
  decide

theorem decodeDigits_append_singleton (l : List Char) (c : Char) :
    decodeDigits (l ++ [c]) = 10 * decodeDigits l + charVal c := by
  simp [decodeDigits, List.foldl_append]

theorem decodeDigits_decAux (n : Nat) : decodeDigits (decAux n []) = n := by
  induction n using Nat.strong_induction_on with
  | _ n ih =>
    by_cases h0 : n / 10 = 0
    · rw [decAux]
      simp only [h0, dif_pos]
      have hm : n % 10 < 10 := Nat.mod_lt _ (by decide)
      have : decodeDigits [Nat.digitChar (n % 10)] = n % 10 := by
        simp [decodeDigits, charVal_digitChar _ hm]
      rw [this]
      omega
    · have hpos : 0 < n := Nat.pos_of_ne_zero (fun hn => h0 (by simp [hn]))
      have hlt : n / 10 < n := Nat.div_lt_self hpos (by decide)
      rw [decAux, dif_neg h0]
      rw [decAux_append, decodeDigits_append_singleton, ih _ hlt,
          charVal_digitChar _ (Nat.mod_lt _ (by decide))]
      omega

theorem decAux_injective {m n : Nat} (h : decAux m [] = decAux n []) : m = n := by
  have := congrArg decodeDigits h
  rwa [decodeDigits_decAux, decodeDigits_decAux] at this

theorem natRepr_injective {m n : Nat} (h : Nat.repr m = Nat.repr n) : m = n := by
  unfold Nat.repr Nat.toDigits at h
  rw [List.asString_inj] at h
  rw [toDigitsCore_eq_decAux _ _ _ (Nat.lt_succ_self m),
      toDigitsCore_eq_decAux _ _ _ (Nat.lt_succ_self n)] at h
  exact decAux_injective h

theorem mem_of_lookup {β : Type} {l : List (String × β)} {k : String} {v : β}
    (h : l.lookup k = some v) : (k, v) ∈ l := by
  rcases List.lookup_eq_some_iff.1 h with ⟨l₁, l₂, rfl, _⟩
  simp

theorem lookup_append_some {β : Type} {l l2 : List (String × β)} {k : String}
    {v : β} (h : l.lookup k = some v) : (l ++ l2).lookup k = some v := by
  rw [List.lookup_append, h]
  rfl

theorem lookup_append_none {β : Type} {l l2 : List (String × β)} {k : String}
    (h : l.lookup k = none) : (l ++ l2).lookup k = l2.lookup k := by
  rw [List.lookup_append, h]
  rfl

theorem setPlanAt_length (l : List (String × UserRec)) (e p : String) :
    (setPlanAt l e p).length = l.length := by
  simp [setPlanAt]

theorem lookup_setPlanAt_ne (l : List (String × UserRec)) {k e : String}
    (p : String) (hne : k ≠ e) : (setPlanAt l e p).lookup k = l.lookup k := by
  induction l with
  | nil => rfl
  | cons a l ih =>
    obtain ⟨ak, av⟩ := a
    by_cases ha : ak = e
    · have hk : (k == ak) = false := by simp [ha, hne]
      simp only [setPlanAt, List.map_cons] at *
      rw [if_pos (by simpa using ha)]
      rw [List.lookup_cons, List.lookup_cons]
      simp only [hk]
      exact ih
    · simp only [setPlanAt, List.map_cons] at *
      rw [if_neg (by simpa using ha)]
      rw [List.lookup_cons, List.lookup_cons]
      cases hk : k == ak
      · exact ih
      · rfl

theorem lookup_setPlanAt_self (l : List (String × UserRec)) {e : String}
    (p : String) {u : UserRec} (h : l.lookup e = some u) :
    (setPlanAt l e p).lookup e = some { u with plan := p } := by
  induction l with
  | nil => simp at h
  | cons a l ih =>
    obtain ⟨ak, av⟩ := a
    by_cases ha : e = ak
    · subst ha
      rw [List.lookup_cons_self] at h
      cases h
      simp only [setPlanAt, List.map_cons]
      rw [if_pos trivial]
      exact List.lookup_cons_self
    · have hk : (e == ak) = false := by simp [ha]
      rw [List.lookup_cons] at h
      simp only [hk] at h
      simp only [setPlanAt, List.map_cons] at *
      by_cases hae : ak = e
      · exact absurd hae.symm ha
      · rw [if_neg (by simpa using hae)]
        rw [List.lookup_cons]
        simp only [hk]
        exact ih h

theorem setPlanAt_of_lookup_none (l : List (String × UserRec)) {e : String}
    (p : String) (h : l.lookup e = none) : setPlanAt l e p = l := by
  induction l with
  | nil => rfl
  | cons a l ih =>
    obtain ⟨ak, av⟩ := a
    rw [List.lookup_cons] at h
    cases hk : e == ak
    · simp only [hk] at h
      have hne : ak ≠ e := by
        intro hh
        simp [hh] at hk
      simp only [setPlanAt, List.map_cons] at *
      rw [if_neg (by simpa using hne)]
      rw [ih h]
    · simp [hk] at h

theorem lookup_setPlanAt_isSome (l : List (String × UserRec)) (k e p : String) :
    ((setPlanAt l e p).lookup k).isSome = (l.lookup k).isSome := by
  by_cases hk : k = e
  · subst hk
    cases h : l.lookup k with
    | none => rw [setPlanAt_of_lookup_none _ _ h, h]
    | some u => rw [lookup_setPlanAt_self _ _ h]; rfl
  · rw [lookup_setPlanAt_ne _ _ hk]

theorem setPlanAt_getElem_frame (l : List (String × UserRec)) (e p : String)
    (i : Nat) (h : i < (setPlanAt l e p).length) (h2 : i < l.length) :
    ((setPlanAt l e p)[i]).1 = (l[i]).1 ∧
    ((setPlanAt l e p)[i]).2.id = (l[i]).2.id ∧
    ((setPlanAt l e p)[i]).2.email = (l[i]).2.email ∧
    ((setPlanAt l e p)[i]).2.name = (l[i]).2.name := by
  simp only [setPlanAt, List.getElem_map]
  split <;> simp

/-! ### Bearer-prefix bridge lemmas -/

theorem pyStartswith_iff (a p : String) :
    pyStartswith a p = true ↔ ∃ rest, a = p ++ rest := by
  unfold pyStartswith
  rw [ List.isPrefixOf_iff_prefix]
  constructor
  · rintro ⟨t, ht⟩
    refine ⟨t.asString, String.ext ?_⟩
    have hd : (List.asString t).data = t := rfl
    rw [String.data_append, hd]
    exact ht.symm
  · rintro ⟨rest, rfl⟩
    exact ⟨rest.data, by rw [String.data_append]⟩

theorem splitSpaceTail_bearer (rest : String) :
    splitSpaceTail ("Bearer " ++ rest) = rest := by
  unfold splitSpaceTail
  have hd : ("Bearer " ++ rest).data =
      'B' :: 'e' :: 'a' :: 'r' :: 'e' :: 'r' :: ' ' :: rest.data := rfl
  rw [hd]
  rw [List.dropWhile_cons_of_pos (by decide), List.dropWhile_cons_of_pos (by decide),
      List.dropWhile_cons_of_pos (by decide), List.dropWhile_cons_of_pos (by decide),
      List.dropWhile_cons_of_pos (by decide), List.dropWhile_cons_of_pos (by decide),
      List.dropWhile_cons_of_neg (by decide)]
  rw [List.drop_one, List.tail_cons]
  exact String.asString_toList rest

/-! ### Handler equations

One equation per control-flow branch of each handler; every later proof
goes through these. -/

theorem register_present {s : St} {e : String} (t : Nat) (pw nm : String)
    {u : UserRec} (h : s.users.lookup e = some u) :
    register t e pw nm s = (s, .err 409 "User already exists") := by
  simp [register, h]

theorem register_absent {s : St} {e : String} (t : Nat) (pw nm : String)
    (h : s.users.lookup e = none) :
    register t e pw nm s =
      (⟨s.users ++ [(e, ⟨"user_" ++ Nat.repr (s.users.length + 1), e, nm, "Free"⟩)],
        (mk_token_value t e, e) :: s.tokens⟩,
       .okAuth (mk_token_value t e)
         ⟨"user_" ++ Nat.repr (s.users.length + 1), e, nm, "Free"⟩) := by
  simp [register, h, mk_token]

theorem login_present {s : St} {e : String} (t : Nat) (pw : String)
    {u : UserRec} (h : s.users.lookup e = some u) :
    login t e pw s =
      (⟨s.users, (mk_token_value t e, e) :: s.tokens⟩,
       .okAuth (mk_token_value t e) u) := by
  simp [login, h, mk_token]

theorem login_absent {s : St} {e : String} (t : Nat) (pw : String)
    (h : s.users.lookup e = none) :
    login t e pw s =
      (⟨s.users ++ [(e, ⟨"user_" ++ Nat.repr (s.users.length + 1), e, "Guest", "Free"⟩)],
        (mk_token_value t e, e) :: s.tokens⟩,
       .okAuth (mk_token_value t e)
         ⟨"user_" ++ Nat.repr (s.users.length + 1), e, "Guest", "Free"⟩) := by
  have h2 : (s.users ++
      [(e, (⟨"user_" ++ Nat.repr (s.users.length + 1), e, "Guest", "Free"⟩ : UserRec))]).lookup e =
      some ⟨"user_" ++ Nat.repr (s.users.length + 1), e, "Guest", "Free"⟩ := by
    rw [lookup_append_none h]
    exact List.lookup_cons_self
  simp [login, h, mk_token, h2]

theorem me_err {s : St} {auth : Option String} {c : Nat} {d : String}
    (h : get_email_from_token s.tokens auth = .error (c, d)) :
    me auth s = (s, .err c d) := by
  simp [me, h]

theorem me_ok {s : St} {auth : Option String} {e : String} {u : UserRec}
    (h : get_email_from_token s.tokens auth = .ok e)
    (h2 : s.users.lookup e = some u) :
    me auth s = (s, .okMe u) := by
  simp [me, h, h2]

theorem me_fst (auth : Option String) (s : St) : (me auth s).1 = s := by
  unfold me
  cases h : get_email_from_token s.tokens auth with
  | error cd => obtain ⟨c, d⟩ := cd; rfl
  | ok e => cases hl : s.users.lookup e <;> simp [hl]

theorem chat_err {s0 s1 : St} {auth : Option String} {c : Nat} {d m : String}
    {p : Option String} (h : get_email_from_token s0.tokens auth = .error (c, d)) :
    chat_send m p auth s0 s1 = .err c d := by
  simp [chat_send, h]

theorem chat_ok {s0 s1 : St} {auth : Option String} {e m : String}
    {p : Option String} {u : UserRec}
    (h : get_email_from_token s0.tokens auth = .ok e)
    (h2 : s1.users.lookup e = some u) :
    chat_send m p auth s0 s1 =
      .okChat "assistant"
        (pyCapitalize (pyLower (pyOrDefault p "Arkadaş")) ++
          " modu: Mesajını aldım — kısa demo yanıt.") u.plan := by
  simp [chat_send, h, h2]

theorem purchase_err_auth {s : St} {auth : Option String} {c : Nat}
    {d plan : String} (h : get_email_from_token s.tokens auth = .error (c, d)) :
    purchase_confirm plan auth s = (s, .err c d) := by
  simp [purchase_confirm, h]

theorem purchase_invalid {s : St} {auth : Option String} {e plan : String}
    (h : get_email_from_token s.tokens auth = .ok e)
    (hbad : ¬ (pyLower (pyStrip plan) = "plus" ∨ pyLower (pyStrip plan) = "pro")) :
    purchase_confirm plan auth s = (s, .err 400 "plan must be Plus or Pro") := by
  simp only [purchase_confirm, h]
  rw [if_pos hbad]

theorem purchase_success {s : St} {auth : Option String} {e plan : String}
    {u : UserRec} (h : get_email_from_token s.tokens auth = .ok e)
    (hgood : pyLower (pyStrip plan) = "plus" ∨ pyLower (pyStrip plan) = "pro")
    (h2 : s.users.lookup e = some u) :
    purchase_confirm plan auth s =
      (⟨setPlanAt s.users e
          (if pyLower (pyStrip plan) = "plus" then "Plus" else "Pro"), s.tokens⟩,
       .okPurchase
         { u with plan := if pyLower (pyStrip plan) = "plus" then "Plus" else "Pro" }) := by
  have h3 : (setPlanAt s.users e
      (if pyLower (pyStrip plan) = "plus" then "Plus" else "Pro")).lookup e =
      some { u with plan := if pyLower (pyStrip plan) = "plus" then "Plus" else "Pro" } :=
    lookup_setPlanAt_self _ _ h2
  simp only [purchase_confirm, h]
  rw [if_neg (not_not_intro hgood)]
  simp only [h2, h3]

theorem get_email_ok_lookup {tokens : List (String × String)}
    {auth : Option String} {e : String}
    (h : get_email_from_token tokens auth = .ok e) :
    ∃ tok, tokens.lookup tok = some e := by
  match auth with
  | none => simp [get_email_from_token] at h
  | some a =>
    simp only [get_email_from_token] at h
    by_cases h1 : a = ""
    · simp [h1] at h
    · rw [if_neg h1] at h
      by_cases h2 : pyStartswith a "Bearer " = false
      · simp [h2] at h
      · rw [if_neg h2] at h
        cases hl : tokens.lookup (splitSpaceTail a) with
        | none => rw [hl] at h; simp at h
        | some em =>
          rw [hl] at h
          by_cases h3 : em = ""
          · simp [h3] at h
          · simp only [h3, if_false, Except.ok.injEq] at h
            exact ⟨splitSpaceTail a, h ▸ hl⟩


theorem goodSt_init : GoodSt initSt := by
  constructor
  · intro i h
    simp [initSt] at h
  · intro tok e hm
    simp [initSt] at hm

theorem goodSt_create (s : St) (rec : UserRec) (e tokval : String)
    (hg : GoodSt s) (hnone : s.users.lookup e = none)
    (hid : rec.id = "user_" ++ Nat.repr (s.users.length + 1)) :
    GoodSt ⟨s.users ++ [(e, rec)], (tokval, e) :: s.tokens⟩ := by
  obtain ⟨hids, htok⟩ := hg
  constructor
  · intro i h
    simp only [List.length_append, List.length_cons, List.length_nil] at h
    by_cases hi : i < s.users.length
    · rw [List.getElem_append_left hi]
      exact hids i hi
    · have hie : i = s.users.length := by omega
      subst hie
      rw [List.getElem_concat_length _ _ _ rfl]
      exact hid
  · intro tok e2 hm
    rcases List.mem_cons.1 hm with heq | hm2
    · cases heq
      rw [lookup_append_none hnone, List.lookup_cons_self]
      rfl
    · rcases Option.isSome_iff_exists.1 (htok tok e2 hm2) with ⟨v, hv⟩
      rw [lookup_append_some hv]
      rfl

theorem goodSt_setPlan (s : St) (e p : String) (hg : GoodSt s) :
    GoodSt ⟨setPlanAt s.users e p, s.tokens⟩ := by
  obtain ⟨hids, htok⟩ := hg
  constructor
  · intro i h
    have h2 : i < s.users.length := by rwa [setPlanAt_length] at h
    have hfr := setPlanAt_getElem_frame s.users e p i h h2
    rw [hfr.2.1]
    exact hids i h2
  · intro tok e2 hm
    rw [lookup_setPlanAt_isSome]
    exact htok tok e2 hm

theorem goodSt_step (r : Req) {s : St} (hg : GoodSt s) : GoodSt (stepSt r s) := by
  cases r with
  | health ts => exact hg
  | plans => exact hg
  | chatSend m p auth => exact hg
  | me auth =>
    show GoodSt (me auth s).1
    rw [me_fst]
    exact hg
  | register t e pw nm =>
    show GoodSt (register t e pw nm s).1
    cases hl : s.users.lookup e with
    | some u => rw [register_present t pw nm hl]; exact hg
    | none => rw [register_absent t pw nm hl]; exact goodSt_create s _ e _ hg hl rfl
  | login t e pw =>
    show GoodSt (login t e pw s).1
    cases hl : s.users.lookup e with
    | some u =>
      rw [login_present t pw hl]
      obtain ⟨hids, htok⟩ := hg
      refine ⟨hids, ?_⟩
      intro tok e2 hm
      rcases List.mem_cons.1 hm with heq | hm2
      · cases heq
        simp [hl]
      · exact htok tok e2 hm2
    | none => rw [login_absent t pw hl]; exact goodSt_create s _ e _ hg hl rfl
  | purchaseConfirm plan auth =>
    show GoodSt (purchase_confirm plan auth s).1
    cases ha : get_email_from_token s.tokens auth with
    | error cd =>
      obtain ⟨c, d⟩ := cd
      rw [purchase_err_auth ha]
      exact hg
    | ok e =>
      by_cases hv : pyLower (pyStrip plan) = "plus" ∨ pyLower (pyStrip plan) = "pro"
      · cases hl : s.users.lookup e with
        | none =>
          have heq : purchase_confirm plan auth s = (s, .keyError) := by
            simp only [purchase_confirm, ha]
            rw [if_neg (not_not_intro hv)]
            simp only [hl]
          rw [heq]
          exact hg
        | some u =>
          rw [purchase_success ha hv hl]
          exact goodSt_setPlan s e _ hg
      · rw [purchase_invalid ha hv]
        exact hg

theorem reachable_goodSt {s : St} (h : Reachable s) : GoodSt s := by
  induction h with
  | init => exact goodSt_init
  | step r _ ih => exact goodSt_step r ih

/-! ### Claim theorems -/

/-- Claim C3: register fails with 409 and detail "User already exists"
exactly when the email is already a key of the User Store, leaving both
stores completely unchanged (the record from the first registration is
preserved); for a fresh email it creates a record with the supplied name
and plan Free and issues a token. -/
theorem C3_register_conflict (t : Nat) (e pw nm : String) (s : St) :
    (∀ u, s.users.lookup e = some u →
        step (.register t e pw nm) s = (s, .err 409 "User already exists"))
    ∧ (s.users.lookup e = none →
        step (.register t e pw nm) s =
          (⟨s.users ++ [(e, ⟨"user_" ++ Nat.repr (s.users.length + 1), e, nm, "Free"⟩)],
            (mk_token_value t e, e) :: s.tokens⟩,
           .okAuth (mk_token_value t e)
             ⟨"user_" ++ Nat.repr (s.users.length + 1), e, nm, "Free"⟩)) :=
  ⟨fun _ hu => register_present t pw nm hu, fun hn => register_absent t pw nm hn⟩

/-- Witness for C3 on a concrete run: the first registration of `a@b`
succeeds and stores the record, the second fails with 409 and changes
nothing. -/
theorem C3_register_conflict_witness :
    (step (.register 0 "a@b" "pw" "Ada") initSt =
      (⟨[("a@b", ⟨"user_1", "a@b", "Ada", "Free"⟩)], [("demo_0_a_b", "a@b")]⟩,
       .okAuth "demo_0_a_b" ⟨"user_1", "a@b", "Ada", "Free"⟩))
    ∧ (step (.register 1 "a@b" "pw2" "Bob") (stepSt (.register 0 "a@b" "pw" "Ada") initSt) =
        (stepSt (.register 0 "a@b" "pw" "Ada") initSt, .err 409 "User already exists")) := by
  constructor
  · have h := (C3_register_conflict 0 "a@b" "pw" "Ada" initSt).2 (by decide)
    rw [h]
    decide
  · exact (C3_register_conflict 1 "a@b" "pw2" "Bob" _).1
      ⟨"user_1", "a@b", "Ada", "Free"⟩ (by decide)

/-- Claim C6: login is an idempotent get-or-create.  When the email is
already a key of the User Store, the stored record is returned unchanged
(same id, plan left as it currently is) and the User Store is not
mutated; when it is absent, a record with name "Guest" and plan "Free"
is created and appended; in both cases a token issuance for that email
is prepended to the Token Store. -/
theorem C6_login_get_or_create (t : Nat) (e pw : String) (s : St) :
    (∀ u, s.users.lookup e = some u →
        step (.login t e pw) s =
          (⟨s.users, (mk_token_value t e, e) :: s.tokens⟩,
           .okAuth (mk_token_value t e) u))
    ∧ (s.users.lookup e = none →
        step (.login t e pw) s =
          (⟨s.users ++ [(e, ⟨"user_" ++ Nat.repr (s.users.length + 1), e, "Guest", "Free"⟩)],
            (mk_token_value t e, e) :: s.tokens⟩,
           .okAuth (mk_token_value t e)
             ⟨"user_" ++ Nat.repr (s.users.length + 1), e, "Guest", "Free"⟩)) :=
  ⟨fun _ hu => login_present t pw hu, fun hn => login_absent t pw hn⟩

/-- Witness for C6 on a concrete run: the first login of `x@y`
auto-provisions a Guest/Free record; a later login against a state where
the plan was meanwhile changed to Plus returns the same id with the plan
still Plus and leaves the User Store untouched. -/
theorem C6_login_get_or_create_witness :
    (step (.login 0 "x@y" "pw") initSt =
      (⟨[("x@y", ⟨"user_1", "x@y", "Guest", "Free"⟩)], [("demo_0_x_y", "x@y")]⟩,
       .okAuth "demo_0_x_y" ⟨"user_1", "x@y", "Guest", "Free"⟩))
    ∧ (step (.login 5 "x@y" "pw2")
        ⟨[("x@y", ⟨"user_1", "x@y", "Guest", "Plus"⟩)], [("demo_0_x_y", "x@y")]⟩ =
        (⟨[("x@y", ⟨"user_1", "x@y", "Guest", "Plus"⟩)],
          [("demo_5_x_y", "x@y"), ("demo_0_x_y", "x@y")]⟩,
         .okAuth "demo_5_x_y" ⟨"user_1", "x@y", "Guest", "Plus"⟩)) := by
  constructor
  · have h := (C6_login_get_or_create 0 "x@y" "pw" initSt).2 (by decide)
    rw [h]
    decide
  · have h := (C6_login_get_or_create 5 "x@y" "pw2"
      ⟨[("x@y", ⟨"user_1", "x@y", "Guest", "Plus"⟩)], [("demo_0_x_y", "x@y")]⟩).1
      ⟨"user_1", "x@y", "Guest", "Plus"⟩ (by decide)
    rw [h]
    decide

/-- Claim C5: an authenticated purchase confirmation normalises the
requested plan with strip-then-lowercase; unless the normalised value is
exactly "plus" or "pro" it fails with 400 and detail
"plan must be Plus or Pro" and leaves the state (hence the user's plan)
unchanged; otherwise the canonical capitalised form is stored in the
resolved user's plan field and the full updated record is returned. -/
theorem C5_purchase_validation (plan : String) (auth : Option String)
    (s : St) (e : String) (u : UserRec)
    (ha : get_email_from_token s.tokens auth = .ok e)
    (hu : s.users.lookup e = some u) :
    (¬ (pyLower (pyStrip plan) = "plus" ∨ pyLower (pyStrip plan) = "pro") →
        step (.purchaseConfirm plan auth) s = (s, .err 400 "plan must be Plus or Pro"))
    ∧ (∀ canon, (pyLower (pyStrip plan) = "plus" ∧ canon = "Plus") ∨
          (pyLower (pyStrip plan) = "pro" ∧ canon = "Pro") →
        step (.purchaseConfirm plan auth) s =
          (⟨setPlanAt s.users e canon, s.tokens⟩,
           .okPurchase { u with plan := canon })) := by
  constructor
  · intro hbad
    exact purchase_invalid ha hbad
  · rintro canon (⟨h1, rfl⟩ | ⟨h1, rfl⟩)
    · have h := purchase_success ha (Or.inl h1) hu
      rw [if_pos h1] at h
      exact h
    · have hne : ¬ pyLower (pyStrip plan) = "plus" := by
        rw [h1]
        decide
      have h := purchase_success ha (Or.inr h1) hu
      rw [if_neg hne] at h
      exact h

/-- Witness for C5 on a concrete state: body plan " PLUS " succeeds and
stores "Plus"; body plan "gold" fails with 400 and changes nothing. -/
theorem C5_purchase_validation_witness :
    (step (.purchaseConfirm " PLUS " (some "Bearer demo_0_x_y"))
        ⟨[("x@y", ⟨"user_1", "x@y", "Guest", "Free"⟩)], [("demo_0_x_y", "x@y")]⟩ =
      (⟨[("x@y", ⟨"user_1", "x@y", "Guest", "Plus"⟩)], [("demo_0_x_y", "x@y")]⟩,
       .okPurchase ⟨"user_1", "x@y", "Guest", "Plus"⟩))
    ∧ (step (.purchaseConfirm "gold" (some "Bearer demo_0_x_y"))
        ⟨[("x@y", ⟨"user_1", "x@y", "Guest", "Free"⟩)], [("demo_0_x_y", "x@y")]⟩ =
      (⟨[("x@y", ⟨"user_1", "x@y", "Guest", "Free"⟩)], [("demo_0_x_y", "x@y")]⟩,
       .err 400 "plan must be Plus or Pro")) := by
  constructor
  · have h := (C5_purchase_validation " PLUS " (some "Bearer demo_0_x_y")
      ⟨[("x@y", ⟨"user_1", "x@y", "Guest", "Free"⟩)], [("demo_0_x_y", "x@y")]⟩
      "x@y" ⟨"user_1", "x@y", "Guest", "Free"⟩ (by rfl) (by decide)).2 "Plus"
      (Or.inl ⟨by decide, rfl⟩)
    rw [h]
    decide
  · exact (C5_purchase_validation "gold" (some "Bearer demo_0_x_y")
      ⟨[("x@y", ⟨"user_1", "x@y", "Guest", "Free"⟩)], [("demo_0_x_y", "x@y")]⟩
      "x@y" ⟨"user_1", "x@y", "Guest", "Free"⟩ (by rfl) (by decide)).1 (by decide)

/-- Case analysis of the purchase handler's state effect: either the
state is unchanged (auth failure, invalid plan, or missing user) or
exactly the resolved user's plan is overwritten. -/
theorem purchase_state_cases (plan : String) (auth : Option String) (s : St) :
    (purchase_confirm plan auth s).1 = s ∨
    ∃ e u, get_email_from_token s.tokens auth = .ok e ∧
      s.users.lookup e = some u ∧
      (purchase_confirm plan auth s).1 =
        ⟨setPlanAt s.users e
          (if pyLower (pyStrip plan) = "plus" then "Plus" else "Pro"), s.tokens⟩ := by
  cases ha : get_email_from_token s.tokens auth with
  | error cd =>
    obtain ⟨c, d⟩ := cd
    rw [purchase_err_auth ha]
    exact Or.inl rfl
  | ok e =>
    by_cases hv : pyLower (pyStrip plan) = "plus" ∨ pyLower (pyStrip plan) = "pro"
    · cases hl : s.users.lookup e with
      | none =>
        have heq : purchase_confirm plan auth s = (s, .keyError) := by
          simp only [purchase_confirm, ha]
          rw [if_neg (not_not_intro hv)]
          simp only [hl]
        rw [heq]
        exact Or.inl rfl
      | some u =>
        rw [purchase_success ha hv hl]
        exact Or.inr ⟨e, u, rfl, hl, rfl⟩
    · rw [purchase_invalid ha hv]
      exact Or.inl rfl

/-- Claim C7: purchase confirmation mutates only the plan field.  Every
request preserves the id, email and name of every stored record; every
request other than a purchase confirmation leaves stored records exactly
unchanged; and a purchase confirmation leaves the Token Store and every
user other than the resolved email untouched. -/
theorem C7_purchase_frame (s : St) :
    (∀ r e u, s.users.lookup e = some u →
        ∃ v, (stepSt r s).users.lookup e = some v ∧
          v.id = u.id ∧ v.email = u.email ∧ v.name = u.name)
    ∧ (∀ r e u, s.users.lookup e = some u →
        (∀ plan auth, r ≠ .purchaseConfirm plan auth) →
        (stepSt r s).users.lookup e = some u)
    ∧ (∀ plan auth,
        (stepSt (.purchaseConfirm plan auth) s).tokens = s.tokens
        ∧ ∀ k, (∀ e2, get_email_from_token s.tokens auth = .ok e2 → k ≠ e2) →
            (stepSt (.purchaseConfirm plan auth) s).users.lookup k =
              s.users.lookup k) := by
  refine ⟨?_, ?_, ?_⟩
  · intro r e u hu
    cases r with
    | health ts => exact ⟨u, hu, rfl, rfl, rfl⟩
    | plans => exact ⟨u, hu, rfl, rfl, rfl⟩
    | chatSend m p auth => exact ⟨u, hu, rfl, rfl, rfl⟩
    | me auth =>
      refine ⟨u, ?_, rfl, rfl, rfl⟩
      show ((me auth s).1).users.lookup e = some u
      rw [me_fst]
      exact hu
    | register t e2 pw nm =>
      cases hl : s.users.lookup e2 with
      | some u2 =>
        refine ⟨u, ?_, rfl, rfl, rfl⟩
        show ((register t e2 pw nm s).1).users.lookup e = some u
        rw [register_present t pw nm hl]
        exact hu
      | none =>
        refine ⟨u, ?_, rfl, rfl, rfl⟩
        show ((register t e2 pw nm s).1).users.lookup e = some u
        rw [register_absent t pw nm hl]
        exact lookup_append_some hu
    | login t e2 pw =>
      cases hl : s.users.lookup e2 with
      | some u2 =>
        refine ⟨u, ?_, rfl, rfl, rfl⟩
        show ((login t e2 pw s).1).users.lookup e = some u
        rw [login_present t pw hl]
        exact hu
      | none =>
        refine ⟨u, ?_, rfl, rfl, rfl⟩
        show ((login t e2 pw s).1).users.lookup e = some u
        rw [login_absent t pw hl]
        exact lookup_append_some hu
    | purchaseConfirm plan auth =>
      rcases purchase_state_cases plan auth s with h | ⟨e2, u2, ha, hl, h⟩
      · refine ⟨u, ?_, rfl, rfl, rfl⟩
        show ((purchase_confirm plan auth s).1).users.lookup e = some u
        rw [h]
        exact hu
      · by_cases he : e = e2
        · subst he
          rw [hu] at hl
          cases hl
          refine ⟨{ u with plan :=
            (if pyLower (pyStrip plan) = "plus" then "Plus" else "Pro") },
            ?_, rfl, rfl, rfl⟩
          show ((purchase_confirm plan auth s).1).users.lookup e = _
          rw [h]
          exact lookup_setPlanAt_self _ _ hu
        · refine ⟨u, ?_, rfl, rfl, rfl⟩
          show ((purchase_confirm plan auth s).1).users.lookup e = some u
          rw [h]
          exact (lookup_setPlanAt_ne _ _ he).trans hu
  · intro r e u hu hne
    cases r with
    | health ts => exact hu
    | plans => exact hu
    | chatSend m p auth => exact hu
    | me auth =>
      show ((me auth s).1).users.lookup e = some u
      rw [me_fst]
      exact hu
    | register t e2 pw nm =>
      cases hl : s.users.lookup e2 with
      | some u2 =>
        show ((register t e2 pw nm s).1).users.lookup e = some u
        rw [register_present t pw nm hl]
        exact hu
      | none =>
        show ((register t e2 pw nm s).1).users.lookup e = some u
        rw [register_absent t pw nm hl]
        exact lookup_append_some hu
    | login t e2 pw =>
      cases hl : s.users.lookup e2 with
      | some u2 =>
        show ((login t e2 pw s).1).users.lookup e = some u
        rw [login_present t pw hl]
        exact hu
      | none =>
        show ((login t e2 pw s).1).users.lookup e = some u
        rw [login_absent t pw hl]
        exact lookup_append_some hu
    | purchaseConfirm plan auth => exact absurd rfl (hne plan auth)
  · intro plan auth
    rcases purchase_state_cases plan auth s with h | ⟨e2, u2, ha, hl, h⟩
    · constructor
      · show ((purchase_confirm plan auth s).1).tokens = s.tokens
        rw [h]
      · intro k hk
        show ((purchase_confirm plan auth s).1).users.lookup k = s.users.lookup k
        rw [h]
    · constructor
      · show ((purchase_confirm plan auth s).1).tokens = s.tokens
        rw [h]
      · intro k hk
        show ((purchase_confirm plan auth s).1).users.lookup k = s.users.lookup k
        rw [h]
        exact lookup_setPlanAt_ne _ _ (hk e2 ha)

/-- Witness for C7 on a concrete state: a successful purchase keeps the
resolved user's id, email and name, and keeps the Token Store. -/
theorem C7_purchase_frame_witness :
    (∃ v, (stepSt (.purchaseConfirm " PLUS " (some "Bearer demo_0_w_z"))
        ⟨[("w@z", ⟨"user_1", "w@z", "Guest", "Free"⟩)],
          [("demo_0_w_z", "w@z")]⟩).users.lookup "w@z" = some v ∧
        v.id = "user_1" ∧ v.email = "w@z" ∧ v.name = "Guest")
    ∧ (stepSt (.purchaseConfirm " PLUS " (some "Bearer demo_0_w_z"))
        ⟨[("w@z", ⟨"user_1", "w@z", "Guest", "Free"⟩)],
          [("demo_0_w_z", "w@z")]⟩).tokens = [("demo_0_w_z", "w@z")] := by
  constructor
  · exact (C7_purchase_frame
      ⟨[("w@z", ⟨"user_1", "w@z", "Guest", "Free"⟩)], [("demo_0_w_z", "w@z")]⟩).1
      (.purchaseConfirm " PLUS " (some "Bearer demo_0_w_z"))
      "w@z" ⟨"user_1", "w@z", "Guest", "Free"⟩ (by decide)
  · exact ((C7_purchase_frame
      ⟨[("w@z", ⟨"user_1", "w@z", "Guest", "Free"⟩)], [("demo_0_w_z", "w@z")]⟩).2.2
      " PLUS " (some "Bearer demo_0_w_z")).1

/-- Claim C2: in every reachable state, user ids follow strict creation
order: the record at creation position i (0-based) carries id
`user_<i+1>`, with no gaps, and records at distinct positions always
carry distinct ids — whichever of the two creation paths (register or
auto-provisioning login) produced them. -/
theorem C2_sequential_ids {s : St} (hs : Reachable s) :
    ∀ i j (hi : i < s.users.length) (hj : j < s.users.length),
      (s.users[i]).2.id = "user_" ++ Nat.repr (i + 1) ∧
      (i ≠ j → (s.users[i]).2.id ≠ (s.users[j]).2.id) := by
  intro i j hi hj
  have hid := (reachable_goodSt hs).1
  refine ⟨hid i hi, ?_⟩
  intro hne heq
  rw [hid i hi, hid j hj] at heq
  have hdata := congrArg String.data heq
  rw [String.data_append, String.data_append] at hdata
  have h2 : (Nat.repr (i + 1)).data = (Nat.repr (j + 1)).data :=
    List.append_cancel_left hdata
  have h3 : i + 1 = j + 1 := natRepr_injective (String.ext h2)
  omega

/-- Witness for C2 on a concrete run mixing both creation paths: after a
registration and an auto-provisioning login the two records carry ids
`user_1` and `user_2`, which differ. -/
theorem C2_sequential_ids_witness :
    ((stepSt (.login 1 "b@c" "pw") (stepSt (.register 0 "a@b" "pw" "Ada") initSt)).users.get
        ⟨0, by decide⟩).2.id = "user_" ++ Nat.repr 1 ∧
    ((stepSt (.login 1 "b@c" "pw") (stepSt (.register 0 "a@b" "pw" "Ada") initSt)).users.get
        ⟨0, by decide⟩).2.id ≠
      ((stepSt (.login 1 "b@c" "pw") (stepSt (.register 0 "a@b" "pw" "Ada") initSt)).users.get
        ⟨1, by decide⟩).2.id := by
  have h := C2_sequential_ids
    (Reachable.step (.login 1 "b@c" "pw")
      (Reachable.step (.register 0 "a@b" "pw" "Ada") Reachable.init))
    0 1 (by decide) (by decide)
  exact ⟨by simpa using h.1, by
    intro hq
    exact h.2 (by decide) (by simpa using hq)⟩

/-- Claim C9: in every reachable state, every email stored as a value in
the Token Store is a key of the User Store; consequently a successful
token resolution always yields an email whose record lookup succeeds,
and the unguarded `USERS[email]` subscripts in the me, chat and purchase
handlers can never raise (`Resp.keyError` is unreachable). -/
theorem C9_token_emails_are_user_keys {s : St} (hs : Reachable s) :
    (∀ tok e, (tok, e) ∈ s.tokens → (s.users.lookup e).isSome = true)
    ∧ (∀ auth e, get_email_from_token s.tokens auth = .ok e →
        (s.users.lookup e).isSome = true)
    ∧ (∀ auth, stepResp (.me auth) s ≠ .keyError)
    ∧ (∀ m p auth, stepResp (.chatSend m p auth) s ≠ .keyError)
    ∧ (∀ plan auth, stepResp (.purchaseConfirm plan auth) s ≠ .keyError) := by
  have h1 := (reachable_goodSt hs).2
  have h2 : ∀ auth e, get_email_from_token s.tokens auth = .ok e →
      (s.users.lookup e).isSome = true := by
    intro auth e h
    rcases get_email_ok_lookup h with ⟨tok, htok⟩
    exact h1 tok e (mem_of_lookup htok)
  refine ⟨h1, h2, ?_, ?_, ?_⟩
  · intro auth
    show (me auth s).2 ≠ .keyError
    cases ha : get_email_from_token s.tokens auth with
    | error cd =>
      obtain ⟨c, d⟩ := cd
      rw [me_err ha]
      simp
    | ok e =>
      rcases Option.isSome_iff_exists.1 (h2 auth e ha) with ⟨u, hu⟩
      rw [me_ok ha hu]
      simp
  · intro m p auth
    show chat_send m p auth s s ≠ .keyError
    cases ha : get_email_from_token s.tokens auth with
    | error cd =>
      obtain ⟨c, d⟩ := cd
      rw [chat_err ha]
      simp
    | ok e =>
      rcases Option.isSome_iff_exists.1 (h2 auth e ha) with ⟨u, hu⟩
      rw [chat_ok ha hu]
      simp
  · intro plan auth
    show (purchase_confirm plan auth s).2 ≠ .keyError
    cases ha : get_email_from_token s.tokens auth with
    | error cd =>
      obtain ⟨c, d⟩ := cd
      rw [purchase_err_auth ha]
      simp
    | ok e =>
      by_cases hv : pyLower (pyStrip plan) = "plus" ∨ pyLower (pyStrip plan) = "pro"
      · rcases Option.isSome_iff_exists.1 (h2 auth e ha) with ⟨u, hu⟩
        rw [purchase_success ha hv hu]
        simp
      · rw [purchase_invalid ha hv]
        simp

/-- Witness for C9 on a concrete reachable state: the email stored for
the issued token is a key of the User Store, and a me request with that
token does not raise. -/
theorem C9_token_emails_are_user_keys_witness :
    (((stepSt (.register 4 "c@d" "pw" "Cem") initSt).users.lookup "c@d").isSome = true)
    ∧ stepResp (.me (some "Bearer demo_4_c_d")) (stepSt (.register 4 "c@d" "pw" "Cem") initSt) ≠
        .keyError := by
  have h := C9_token_emails_are_user_keys
    (Reachable.step (.register 4 "c@d" "pw" "Cem") Reachable.init)
  exact ⟨h.1 "demo_4_c_d" "c@d" (by decide), h.2.2.1 (some "Bearer demo_4_c_d")⟩

/-- Claim C8: for an authenticated chat request with a (non-falsy)
persona string p, the reply is exactly the lower-cased-then-capitalised
persona substituted into the fixed Turkish template, the message content
has no effect on the response, and the returned user_plan is the plan
stored for the resolved user in the state current at response time
(after the delay), not in the state in which the token was resolved. -/
theorem C8_chat_reply (m p : String) (auth : Option String) (s0 s1 : St)
    (e : String) (u : UserRec)
    (ha : get_email_from_token s0.tokens auth = .ok e)
    (hu : s1.users.lookup e = some u)
    (hp : p ≠ "") :
    (chat_send m (some p) auth s0 s1 =
      .okChat "assistant"
        (pyCapitalize (pyLower p) ++ " modu: Mesajını aldım — kısa demo yanıt.")
        u.plan)
    ∧ ∀ m2, chat_send m2 (some p) auth s0 s1 = chat_send m (some p) auth s0 s1 := by
  have hd : pyOrDefault (some p) "Arkadaş" = p := by
    simp [pyOrDefault, hp]
  constructor
  · rw [chat_ok ha hu, hd]
  · intro m2
    rw [chat_ok ha hu, chat_ok ha hu]

/-- Witness for C8: persona "kanka" yields exactly the expected reply,
and the user_plan reflects a plan change that happened between token
resolution and the post-delay read. -/
theorem C8_chat_reply_witness :
    chat_send "merhaba" (some "kanka") (some "Bearer demo_0_k_l")
      ⟨[("k@l", ⟨"user_1", "k@l", "Guest", "Free"⟩)], [("demo_0_k_l", "k@l")]⟩
      ⟨[("k@l", ⟨"user_1", "k@l", "Guest", "Pro"⟩)], [("demo_0_k_l", "k@l")]⟩ =
      .okChat "assistant" "Kanka modu: Mesajını aldım — kısa demo yanıt." "Pro" := by
  have h := (C8_chat_reply "merhaba" "kanka" (some "Bearer demo_0_k_l")
    ⟨[("k@l", ⟨"user_1", "k@l", "Guest", "Free"⟩)], [("demo_0_k_l", "k@l")]⟩
    ⟨[("k@l", ⟨"user_1", "k@l", "Guest", "Pro"⟩)], [("demo_0_k_l", "k@l")]⟩
    "k@l" ⟨"user_1", "k@l", "Guest", "Pro"⟩ (by rfl) (by decide) (by decide)).1
  rw [h]
  decide

/-- Claim C10: the chat persona default applies to every falsy persona
value: both an absent persona and the empty string fall back to
"Arkadaş", producing exactly the default reply. -/
theorem C10_default_persona (m : String) (p : Option String)
    (auth : Option String) (s0 s1 : St) (e : String) (u : UserRec)
    (ha : get_email_from_token s0.tokens auth = .ok e)
    (hu : s1.users.lookup e = some u)
    (hp : p = none ∨ p = some "") :
    chat_send m p auth s0 s1 =
      .okChat "assistant" "Arkadaş modu: Mesajını aldım — kısa demo yanıt." u.plan := by
  have hd : pyOrDefault p "Arkadaş" = "Arkadaş" := by
    rcases hp with rfl | rfl <;> decide
  rw [chat_ok ha hu, hd]
  have hcap : pyCapitalize (pyLower "Arkadaş") ++
      " modu: Mesajını aldım — kısa demo yanıt." =
      "Arkadaş modu: Mesajını aldım — kısa demo yanıt." := by decide
  rw [hcap]

/-- Witness for C10: an empty-string persona gets the default reply. -/
theorem C10_default_persona_witness :
    chat_send "selam" (some "") (some "Bearer demo_0_m_n")
      ⟨[("m@n", ⟨"user_1", "m@n", "Guest", "Free"⟩)], [("demo_0_m_n", "m@n")]⟩
      ⟨[("m@n", ⟨"user_1", "m@n", "Guest", "Free"⟩)], [("demo_0_m_n", "m@n")]⟩ =
      .okChat "assistant" "Arkadaş modu: Mesajını aldım — kısa demo yanıt." "Free" :=
  C10_default_persona "selam" (some "") (some "Bearer demo_0_m_n") _ _ "m@n"
    ⟨"user_1", "m@n", "Guest", "Free"⟩ (by rfl) (by decide) (Or.inr rfl)

/-- Token Store effect of one request: unchanged, or one new binding
prepended. -/
theorem stepSt_tokens_cases (r : Req) (s : St) :
    (stepSt r s).tokens = s.tokens ∨
    ∃ a, (stepSt r s).tokens = a :: s.tokens := by
  cases r with
  | health ts => exact Or.inl rfl
  | plans => exact Or.inl rfl
  | chatSend m p auth => exact Or.inl rfl
  | me auth =>
    refine Or.inl ?_
    show ((me auth s).1).tokens = s.tokens
    rw [me_fst]
  | register t e pw nm =>
    cases hl : s.users.lookup e with
    | some u =>
      refine Or.inl ?_
      show ((register t e pw nm s).1).tokens = s.tokens
      rw [register_present t pw nm hl]
    | none =>
      refine Or.inr ⟨(mk_token_value t e, e), ?_⟩
      show ((register t e pw nm s).1).tokens = _ :: s.tokens
      rw [register_absent t pw nm hl]
  | login t e pw =>
    cases hl : s.users.lookup e with
    | some u =>
      refine Or.inr ⟨(mk_token_value t e, e), ?_⟩
      show ((login t e pw s).1).tokens = _ :: s.tokens
      rw [login_present t pw hl]
    | none =>
      refine Or.inr ⟨(mk_token_value t e, e), ?_⟩
      show ((login t e pw s).1).tokens = _ :: s.tokens
      rw [login_absent t pw hl]
  | purchaseConfirm plan auth =>
    rcases purchase_state_cases plan auth s with h | ⟨e2, u2, ha, hl, h⟩
    · refine Or.inl ?_
      show ((purchase_confirm plan auth s).1).tokens = s.tokens
      rw [h]
    · refine Or.inl ?_
      show ((purchase_confirm plan auth s).1).tokens = s.tokens
      rw [h]

theorem lookup_cons_isSome {l : List (String × String)} {k : String}
    (a : String × String) (h : (l.lookup k).isSome = true) :
    ((a :: l).lookup k).isSome = true := by
  obtain ⟨a1, a2⟩ := a
  rw [List.lookup_cons]
  cases hk : k == a1 <;> simp [h]

/-- Claim C1 counterexample: token issuance is not collision-free across
emails.  The sanitisation replaces the at-sign by an underscore, so the
distinct emails "a@b" and "a_b" issued in the same millisecond produce
the same token string; a run performing those two logins leaves the
shared token resolving to the later email, i.e. the token was
remapped. -/
theorem C1_counterexample :
    mk_token_value 0 "a@b" = mk_token_value 0 "a_b"
    ∧ "a@b" ≠ "a_b"
    ∧ (stepSt (.login 0 "a_b" "pw") (stepSt (.login 0 "a@b" "pw") initSt)).tokens.lookup
        (mk_token_value 0 "a@b") = some "a_b" :=
  ⟨by decide, by decide, by decide⟩

/-- Claim C1 amended: tokens issued for the same email at different
millisecond timestamps never collide, and token bindings are never
deleted — once a token is a key of the Token Store it stays one (its
binding can only change when a later issuance generates the same token
string, which requires an equal timestamp-and-sanitised-email
rendering). -/
theorem C1_amended_token_uniqueness :
    (∀ t1 t2 e, t1 ≠ t2 → mk_token_value t1 e ≠ mk_token_value t2 e)
    ∧ (∀ r s tok, (s.tokens.lookup tok).isSome = true →
        ((stepSt r s).tokens.lookup tok).isSome = true) := by
  constructor
  · intro t1 t2 e hne heq
    unfold mk_token_value at heq
    have hdata := congrArg String.data heq
    simp only [String.data_append, List.append_assoc] at hdata
    have h2 := List.append_cancel_left hdata
    have h3 := List.append_cancel_right h2
    exact hne (natRepr_injective (String.ext h3))
  · intro r s tok h
    rcases stepSt_tokens_cases r s with hc | ⟨a, hc⟩
    · rw [hc]
      exact h
    · rw [hc]
      exact lookup_cons_isSome a h

/-- Witness for the amended C1: two issuances for the same email at
timestamps 0 and 1 differ, and an issued token stays resolvable across
a later request. -/
theorem C1_amended_token_uniqueness_witness :
    mk_token_value 0 "x@y" ≠ mk_token_value 1 "x@y"
    ∧ (((stepSt (.login 3 "q@r" "pw")
        ⟨[("q@r", ⟨"user_1", "q@r", "Guest", "Free"⟩)],
          [("demo_0_q_r", "q@r")]⟩).tokens.lookup "demo_0_q_r").isSome = true) :=
  ⟨C1_amended_token_uniqueness.1 0 1 "x@y" (by decide),
   C1_amended_token_uniqueness.2 (.login 3 "q@r" "pw") _ "demo_0_q_r" (by decide)⟩

/-- Claim C4 counterexample: resolution can fail for a token that is a
key of the Token Store.  Registering the empty-string email (accepted by
the schema) stores the token "demo_0_" mapping to ""; a request carrying
exactly that token has a present header, the literal "Bearer " prefix,
and a token that is a key of the store — yet resolution fails with 401,
because the handler tests the looked-up email for Python falsiness and
the empty string is falsy. -/
theorem C4_counterexample :
    pyStartswith "Bearer demo_0_" "Bearer " = true
    ∧ splitSpaceTail "Bearer demo_0_" = "demo_0_"
    ∧ (((stepSt (.register 0 "" "pw" "Guest") initSt).tokens.lookup "demo_0_").isSome = true)
    ∧ get_email_from_token (stepSt (.register 0 "" "pw" "Guest") initSt).tokens
        (some "Bearer demo_0_") = .error (401, "Invalid token") :=
  ⟨by decide, by decide, by decide, by rfl⟩

/-- Claim C4 amended: resolution fails with 401 if and only if the
Authorization header is absent, does not start with the literal prefix
"Bearer ", the token after the prefix is not a key of the Token Store,
or the token is a key whose stored email is the empty string; on success
it returns exactly the email the store associates with the token, and
any request to the me, chat or purchase endpoints whose resolution fails
leaves the state unchanged. -/
theorem C4_amended_auth_resolution (tokens : List (String × String))
    (auth : Option String) :
    ((∃ c d, get_email_from_token tokens auth = .error (c, d)) ↔
      (auth = none ∨ ∃ a, auth = some a ∧
        (pyStartswith a "Bearer " = false ∨
         tokens.lookup (splitSpaceTail a) = none ∨
         tokens.lookup (splitSpaceTail a) = some "")))
    ∧ (∀ rest, splitSpaceTail ("Bearer " ++ rest) = rest)
    ∧ (∀ e, get_email_from_token tokens auth = .ok e →
        ∃ a, auth = some a ∧ tokens.lookup (splitSpaceTail a) = some e ∧ e ≠ "")
    ∧ (∀ s : St, s.tokens = tokens →
        (∃ c d, get_email_from_token tokens auth = .error (c, d)) →
        stepSt (.me auth) s = s
        ∧ (∀ m p, stepSt (.chatSend m p auth) s = s)
        ∧ (∀ plan, stepSt (.purchaseConfirm plan auth) s = s)) := by
  refine ⟨⟨?_, ?_⟩, splitSpaceTail_bearer, ?_, ?_⟩
  · rintro ⟨c, d, h⟩
    cases auth with
    | none => exact Or.inl rfl
    | some a =>
      refine Or.inr ⟨a, rfl, ?_⟩
      simp only [get_email_from_token] at h
      by_cases h1 : a = ""
      · subst h1
        left
        decide
      · rw [if_neg h1] at h
        by_cases h2 : pyStartswith a "Bearer " = false
        · exact Or.inl h2
        · rw [if_neg h2] at h
          cases hl : tokens.lookup (splitSpaceTail a) with
          | none => exact Or.inr (Or.inl rfl)
          | some em =>
            rw [hl] at h
            by_cases h3 : em = ""
            · subst h3
              exact Or.inr (Or.inr rfl)
            · simp [h3] at h
  · rintro (rfl | ⟨a, rfl, hcase⟩)
    · exact ⟨401, "Missing or invalid token", rfl⟩
    · by_cases h1 : a = ""
      · subst h1
        exact ⟨401, "Missing or invalid token", by rfl⟩
      · rcases hcase with hs | hl | hl
        · refine ⟨401, "Missing or invalid token", ?_⟩
          simp only [get_email_from_token]
          rw [if_neg h1, if_pos hs]
        · by_cases h2 : pyStartswith a "Bearer " = false
          · refine ⟨401, "Missing or invalid token", ?_⟩
            simp only [get_email_from_token]
            rw [if_neg h1, if_pos h2]
          · refine ⟨401, "Invalid token", ?_⟩
            simp only [get_email_from_token]
            rw [if_neg h1, if_neg h2, hl]
        · by_cases h2 : pyStartswith a "Bearer " = false
          · refine ⟨401, "Missing or invalid token", ?_⟩
            simp only [get_email_from_token]
            rw [if_neg h1, if_pos h2]
          · refine ⟨401, "Invalid token", ?_⟩
            simp only [get_email_from_token]
            rw [if_neg h1, if_neg h2, hl]
            rfl
  · intro e h
    cases auth with
    | none => simp [get_email_from_token] at h
    | some a =>
      refine ⟨a, rfl, ?_⟩
      simp only [get_email_from_token] at h
      by_cases h1 : a = ""
      · simp [h1] at h
      · rw [if_neg h1] at h
        by_cases h2 : pyStartswith a "Bearer " = false
        · rw [if_pos h2] at h
          simp at h
        · rw [if_neg h2] at h
          cases hl : tokens.lookup (splitSpaceTail a) with
          | none =>
            rw [hl] at h
            simp at h
          | some em =>
            rw [hl] at h
            by_cases h3 : em = ""
            · simp [h3] at h
            · simp only [h3, if_false, Except.ok.injEq] at h
              exact ⟨congrArg some h, h ▸ h3⟩
  · intro s hst hfail
    refine ⟨?_, fun m p => rfl, ?_⟩
    · show (me auth s).1 = s
      exact me_fst auth s
    · intro plan
      rcases hfail with ⟨c, d, hf⟩
      rw [← hst] at hf
      show (purchase_confirm plan auth s).1 = s
      rw [purchase_err_auth hf]

/-- Witness for the amended C4: a concrete store and header resolve to
the stored email, and a failing resolution leaves a concrete state
unchanged. -/
theorem C4_amended_auth_resolution_witness :
    (∃ a, (some "Bearer demo_7_u_v" : Option String) = some a ∧
      [("demo_7_u_v", "u@v")].lookup (splitSpaceTail a) = some "u@v" ∧ "u@v" ≠ "")
    ∧ stepSt (.purchaseConfirm "plus" (some "Bearer wrong"))
        ⟨[("u@v", ⟨"user_1", "u@v", "Guest", "Free"⟩)], [("demo_7_u_v", "u@v")]⟩ =
        ⟨[("u@v", ⟨"user_1", "u@v", "Guest", "Free"⟩)], [("demo_7_u_v", "u@v")]⟩ := by
  constructor
  · exact (C4_amended_auth_resolution [("demo_7_u_v", "u@v")]
      (some "Bearer demo_7_u_v")).2.2.1 "u@v" (by rfl)
  · exact ((C4_amended_auth_resolution [("demo_7_u_v", "u@v")]
      (some "Bearer wrong")).2.2.2
      ⟨[("u@v", ⟨"user_1", "u@v", "Guest", "Free"⟩)], [("demo_7_u_v", "u@v")]⟩
      rfl ⟨401, "Invalid token", by rfl⟩).2.2 "plus"
